import Mathlib

set_option maxRecDepth 2000

namespace PawScout

/-! Shallow embedding of the PawScout backend authentication core:
`app/auth.py`, `app/dependencies.py`, the user routes of
`app/routers/users.py` and the admin routes of `app/internal/admin.py`.
Machine state (the SQL user table) is passed explicitly as a list of
rows; Python exceptions become `Except.error`. -/

/-! ### Data model: `PawUser` from `app/routers/users.py` -/

structure PawUser where
  id : Option Int
  email : String
  name : String
  lastName : String
  password : String
  isAdmin : Bool
  deriving DecidableEq

/-! ### Password hashing: `pwdlib.PasswordHash.recommended()` as used by
`app/auth.py`.  The Argon2 digest itself is cryptographic and is modelled
by a deterministic function of the secret and the salt; the salt, chosen
randomly inside the library, is an explicit parameter.  The structural
behaviour of the library — the self-describing `$argon2…` format, the
`identify` dispatch, and the `UnknownHashError` raised when no hasher
identifies the hash — is modelled faithfully. -/

inductive PwdlibError where
  | unknownHash
  deriving DecidableEq

/-- Abstract model of the Argon2 digest: a deterministic function of the
secret and the salt (the real digest is a cryptographic function; only
determinism given the salt matters for the properties proved here). -/
def argon2_digest (password : String) (salt : Nat) : Nat :=
  (password.toList.foldl (fun a c => a + c.toNat) 0 + salt) % 97

/-- Encoding of a numeric hash component inside the hash string. -/
def natChars (n : Nat) : List Char := List.replicate n 'x'

/-- The self-describing hash string produced by the Argon2 hasher:
dollar-separated algorithm tag, salt and digest. -/
def argon2_hash_chars (password : String) (salt : Nat) : List Char :=
  "$argon2id$".toList ++ natChars salt ++ '$' :: natChars (argon2_digest password salt)

/-- `app/auth.py` `get_password_hash`: hash a password using argon2 (the
internally generated random salt is the explicit `salt` parameter). -/
def get_password_hash (password : String) (salt : Nat) : String :=
  String.mk (argon2_hash_chars password salt)

/-- `pwdlib` `Argon2Hasher.identify`: the hash starts with `"$argon2"`. -/
def argon2_identify (hash : List Char) : Bool :=
  List.isPrefixOf "$argon2".toList hash

/-- Splitting of the self-describing hash on the dollar separator. -/
def splitDollar : List Char → List (List Char)
  | [] => [[]]
  | c :: rest =>
    if c = '$' then [] :: splitDollar rest
    else
      match splitDollar rest with
      | [] => [[c]]
      | h :: t => (c :: h) :: t

/-- `pwdlib` `Argon2Hasher.verify`: re-derive the digest from the salt
embedded in the hash and compare; a structurally malformed argon2 hash
verifies false (the library converts its verification errors to `False`). -/
def argon2_verify (password : String) (hash : List Char) : Bool :=
  match splitDollar hash with
  | [[], tag, s, d] =>
      tag == "argon2id".toList && argon2_digest password s.length == d.length
  | _ => false

/-- `pwdlib` `PasswordHash.verify` with the recommended hasher list (a
single Argon2 hasher): dispatch on `identify`; when no hasher identifies
the hash, raise `UnknownHashError` (modelled as `Except.error`). -/
def pwdlib_verify (password : String) (hash : List Char) : Except PwdlibError Bool :=
  if argon2_identify hash then .ok (argon2_verify password hash)
  else .error .unknownHash

/-- `app/auth.py` `verify_password`: delegates to `password_hash.verify`. -/
def verify_password (plain_password hashed_password : String) : Except PwdlibError Bool :=
  pwdlib_verify plain_password hashed_password.toList

/-! ### Helper lemmas about the hash encoding -/

theorem splitDollar_cons_dollar (l : List Char) :
    splitDollar ('$' :: l) = [] :: splitDollar l := by
  simp [splitDollar]

theorem splitDollar_of_not_mem (l : List Char) (h : '$' ∉ l) :
    splitDollar l = [l] := by
  induction l with
  | nil => rfl
  | cons c rest ih =>
    have hc : ¬ c = '$' := fun he => h (he ▸ List.mem_cons_self c rest)
    have hr : '$' ∉ rest := fun hm => h (List.mem_cons_of_mem c hm)
    simp [splitDollar, hc, ih hr]

theorem splitDollar_append (a b : List Char) (h : '$' ∉ a) :
    splitDollar (a ++ '$' :: b) = a :: splitDollar b := by
  induction a with
  | nil => simp [splitDollar_cons_dollar]
  | cons c rest ih =>
    have hc : ¬ c = '$' := fun he => h (he ▸ List.mem_cons_self c rest)
    have hr : '$' ∉ rest := fun hm => h (List.mem_cons_of_mem c hm)
    simp only [List.cons_append, splitDollar, hc, if_false]
    have ih2 : splitDollar (rest.append ('$' :: b)) = rest :: splitDollar b := ih hr
    rw [ih2]

theorem dollar_not_mem_natChars (n : Nat) : '$' ∉ natChars n := by
  intro h
  have := List.eq_of_mem_replicate h
  exact absurd this (by decide)

theorem dollar_not_mem_argon2id : '$' ∉ "argon2id".toList := by decide

theorem splitDollar_hash (password : String) (salt : Nat) :
    splitDollar (argon2_hash_chars password salt) =
      [[], "argon2id".toList, natChars salt, natChars (argon2_digest password salt)] := by
  have h1 : argon2_hash_chars password salt =
      '$' :: ("argon2id".toList ++ '$' ::
        (natChars salt ++ '$' :: natChars (argon2_digest password salt))) := rfl
  rw [h1, splitDollar_cons_dollar,
      splitDollar_append _ _ dollar_not_mem_argon2id,
      splitDollar_append _ _ (dollar_not_mem_natChars salt),
      splitDollar_of_not_mem _ (dollar_not_mem_natChars _)]

theorem argon2_verify_roundtrip (s : String) (salt : Nat) :
    argon2_verify s (argon2_hash_chars s salt) = true := by
  unfold argon2_verify
  rw [splitDollar_hash]
  simp [natChars]

/-- C8: the hash/verify round trip always succeeds: verifying a secret
against the hash produced from that same secret (any salt) returns true,
without raising. -/
theorem verify_roundtrip (s : String) (salt : Nat) :
    verify_password s (get_password_hash s salt) = .ok true := by
  have hid : argon2_identify (argon2_hash_chars s salt) = true := rfl
  show pwdlib_verify s (argon2_hash_chars s salt) = .ok true
  unfold pwdlib_verify
  rw [hid]
  simp [argon2_verify_roundtrip]

/-- C4 counterexample: `verify_password` applied to a hash string that is
not a self-describing argon2 hash raises `UnknownHashError` (uncaught in
`app/auth.py`) instead of returning false. -/
theorem verify_password_raises_on_unidentified_hash :
    verify_password "password123" "notahash" = .error PwdlibError.unknownHash := rfl

/-- C4 amended: `verify_password` raises `UnknownHashError` exactly when
no configured hasher identifies the hash (it does not start with
`"$argon2"`); for an identified hash it returns a boolean without
raising. -/
theorem verify_password_raises_iff_unidentified (s h : String) :
    (argon2_identify h.toList = false →
      verify_password s h = .error PwdlibError.unknownHash) ∧
    (argon2_identify h.toList = true →
      verify_password s h = .ok (argon2_verify s h.toList)) := by
  constructor
  · intro hid
    unfold verify_password pwdlib_verify
    rw [hid]
    simp
  · intro hid
    unfold verify_password pwdlib_verify
    rw [hid]
    simp

/-- C4 amended witness: a concrete unidentified hash raises. -/
theorem verify_password_raises_iff_unidentified_witness :
    verify_password "a" "zzz" = .error PwdlibError.unknownHash :=
  (verify_password_raises_iff_unidentified "a" "zzz").1 rfl

/-! ### Token service: `create_access_token` in `app/auth.py` and
`jwt.decode` (PyJWT) as called by `app/dependencies.py`.  A token is
either a structure signed with some key and algorithm or an unparseable
string; times are integer seconds. -/

structure Claims where
  sub : Option String
  user_id : Option Int
  isAdmin : Bool
  name : String
  lastName : String
  exp : Option Int
  deriving DecidableEq

inductive Token where
  | signed (key : String) (alg : String) (claims : Claims)
  | malformed (raw : String)
  deriving DecidableEq

/-- The `data` dict passed to `create_access_token` (no `exp` yet). -/
structure TokenData where
  sub : Option String
  user_id : Option Int
  isAdmin : Bool
  name : String
  lastName : String
  deriving DecidableEq

/-- `app/auth.py` `create_access_token`: `expires_delta` is the optional
timedelta in seconds (`none` when omitted).  Python truthiness is kept:
`if expires_delta:` is false both for `None` and for a zero timedelta, so
the 15-minute default applies in both cases.  The function is pure: it
only builds and signs the claim set. -/
def create_access_token (data : TokenData) (expires_delta : Option Int)
    (now : Int) (secret_key : String) (algorithm : String) : Token :=
  let expire : Int :=
    match expires_delta with
    | some d => if d == 0 then now + 15 * 60 else now + d
    | none => now + 15 * 60
  .signed secret_key algorithm
    { sub := data.sub, user_id := data.user_id, isAdmin := data.isAdmin,
      name := data.name, lastName := data.lastName, exp := some expire }

inductive TokenErrorKind where
  | malformed
  | badSignature
  | expired
  deriving DecidableEq

/-- PyJWT `jwt.decode(token, key, algorithms=[alg])`: structural parse,
signature check against the key and the allowed algorithm list, expiry
check against the current time; all failures are subclasses of
`InvalidTokenError`. -/
def jwt_decode (token : Token) (key : String) (alg : String) (now : Int) :
    Except TokenErrorKind Claims :=
  match token with
  | .malformed _ => .error .malformed
  | .signed k a c =>
    if k == key && a == alg then
      match c.exp with
      | some e => if e ≤ now then .error .expired else .ok c
      | none => .ok c
    else .error .badSignature

/-! ### Identity resolver and access control gate: `app/dependencies.py` -/

structure HTTPException where
  status_code : Nat
  detail : String
  headers : List (String × String)
  deriving DecidableEq

/-- The single 401 raised for every authentication failure in
`get_current_user`. -/
def credentials_exception : HTTPException :=
  { status_code := 401, detail := "Could not validate credentials",
    headers := [("WWW-Authenticate", "Bearer")] }

/-- The 403 raised by `get_current_admin_user`. -/
def admin_forbidden_exception : HTTPException :=
  { status_code := 403,
    detail := "You do not have permission to access this resource. Admin privileges required.",
    headers := [] }

/-- sqlmodel `Session.get(PawUser, user_id)`: primary-key lookup. -/
def session_get (db : List PawUser) (user_id : Int) : Option PawUser :=
  db.find? (fun u => u.id == some user_id)

/-- `app/dependencies.py` `get_current_user`: decode the JWT, require the
`sub` and `user_id` claims, load the user from the database; every failure
raises the same `credentials_exception`. -/
def get_current_user (token : Token) (db : List PawUser)
    (secret_key : String) (algorithm : String) (now : Int) :
    Except HTTPException PawUser :=
  match jwt_decode token secret_key algorithm now with
  | .error _ => .error credentials_exception
  | .ok payload =>
    match payload.sub, payload.user_id with
    | some _, some uid =>
      match session_get db uid with
      | some user => .ok user
      | none => .error credentials_exception
    | _, _ => .error credentials_exception

/-- `app/dependencies.py` `get_current_admin_user`: reject with 403 when
the freshly resolved user is not an admin, otherwise return the user
unchanged. -/
def get_current_admin_user (current_user : PawUser) : Except HTTPException PawUser :=
  if !current_user.isAdmin then .error admin_forbidden_exception
  else .ok current_user

/-- The FastAPI dependency chain `AdminUser`: `get_current_admin_user`
composed after `get_current_user`. -/
def resolve_admin_user (token : Token) (db : List PawUser)
    (secret_key algorithm : String) (now : Int) : Except HTTPException PawUser :=
  match get_current_user token db secret_key algorithm now with
  | .error e => .error e
  | .ok u => get_current_admin_user u

/-- C3: the admin gate returns the resolved user unchanged when
`isAdmin` is true and fails with the 403 Forbidden outcome when it is
false; it is a pure function of the user record with no effect on any
state. -/
theorem get_current_admin_user_spec (u : PawUser) :
    get_current_admin_user u =
      if u.isAdmin then .ok u else .error admin_forbidden_exception := by
  unfold get_current_admin_user
  cases h : u.isAdmin <;> simp [h]

/-- C1: the admin decision is made from the `isAdmin` field of the user
record freshly loaded from storage during resolution, never from the
token's embedded `isAdmin` claim: for any well-signed unexpired token
whose `user_id` claim resolves to stored user `u`, the composed admin
dependency admits exactly when `u.isAdmin` is true — for every value of
the claim set's own `isAdmin` field. -/
theorem admin_gate_uses_stored_isAdmin
    (c : Claims) (db : List PawUser) (key alg email : String)
    (now : Int) (uid : Int) (u : PawUser)
    (hsub : c.sub = some email) (huid : c.user_id = some uid)
    (hexp : ∀ e, c.exp = some e → now < e)
    (hdb : session_get db uid = some u) :
    resolve_admin_user (.signed key alg c) db key alg now =
      if u.isAdmin then .ok u else .error admin_forbidden_exception := by
  have hdec : jwt_decode (.signed key alg c) key alg now = .ok c := by
    unfold jwt_decode
    simp only [beq_self_eq_true, Bool.and_self, if_true]
    cases he : c.exp with
    | none => rfl
    | some e =>
      have := hexp e he
      simp [not_le.mpr this]
  unfold resolve_admin_user get_current_user
  simp only [hdec, hsub, huid, hdb]
  exact get_current_admin_user_spec u

/-- C1 witness: a token whose embedded claim says `isAdmin := false` is
admitted when the stored record says true, and a token whose claim says
true is denied when the stored record says false. -/
theorem admin_gate_uses_stored_isAdmin_witness :
    resolve_admin_user
        (.signed "k" "HS256"
          { sub := some "a@b.com", user_id := some 7, isAdmin := false,
            name := "A", lastName := "B", exp := some 100 })
        [{ id := some 7, email := "a@b.com", name := "A", lastName := "B",
           password := "h", isAdmin := true }] "k" "HS256" 0 =
      .ok { id := some 7, email := "a@b.com", name := "A", lastName := "B",
            password := "h", isAdmin := true } ∧
    resolve_admin_user
        (.signed "k" "HS256"
          { sub := some "a@b.com", user_id := some 7, isAdmin := true,
            name := "A", lastName := "B", exp := some 100 })
        [{ id := some 7, email := "a@b.com", name := "A", lastName := "B",
           password := "h", isAdmin := false }] "k" "HS256" 0 =
      .error admin_forbidden_exception := by
  constructor
  · exact (admin_gate_uses_stored_isAdmin
      { sub := some "a@b.com", user_id := some 7, isAdmin := false,
        name := "A", lastName := "B", exp := some 100 }
      [{ id := some 7, email := "a@b.com", name := "A", lastName := "B",
         password := "h", isAdmin := true }] "k" "HS256" "a@b.com" 0 7
      { id := some 7, email := "a@b.com", name := "A", lastName := "B",
        password := "h", isAdmin := true }
      rfl rfl (fun e he => by cases he; decide) rfl).trans rfl
  · exact (admin_gate_uses_stored_isAdmin
      { sub := some "a@b.com", user_id := some 7, isAdmin := true,
        name := "A", lastName := "B", exp := some 100 }
      [{ id := some 7, email := "a@b.com", name := "A", lastName := "B",
         password := "h", isAdmin := false }] "k" "HS256" "a@b.com" 0 7
      { id := some 7, email := "a@b.com", name := "A", lastName := "B",
        password := "h", isAdmin := false }
      rfl rfl (fun e he => by cases he; decide) rfl).trans rfl

/-- C2: every failure of identity resolution — unparseable or badly
signed or expired token, missing `sub` or `user_id` claim, or a `user_id`
not in the user store — raises the identical 401 with the same generic
detail and the Bearer challenge header: the error value is always
`credentials_exception`. -/
theorem get_current_user_single_error
    (token : Token) (db : List PawUser) (key alg : String) (now : Int)
    (e : HTTPException)
    (h : get_current_user token db key alg now = .error e) :
    e = credentials_exception := by
  unfold get_current_user at h
  cases hd : jwt_decode token key alg now with
  | error te =>
    simp only [hd] at h
    exact (Except.error.inj h).symm
  | ok payload =>
    simp only [hd] at h
    cases hs : payload.sub with
    | none =>
      cases hu : payload.user_id <;> simp only [hs, hu] at h <;>
        exact (Except.error.inj h).symm
    | some em =>
      cases hu : payload.user_id with
      | none =>
        simp only [hs, hu] at h
        exact (Except.error.inj h).symm
      | some uid =>
        simp only [hs, hu] at h
        cases hg : session_get db uid with
        | none =>
          simp only [hg] at h
          exact (Except.error.inj h).symm
        | some u =>
          simp only [hg] at h
          exact absurd h (by simp)

/-- C2 witness: a concrete unparseable token fails, and the error is the
generic credentials exception. -/
theorem get_current_user_single_error_witness :
    get_current_user (Token.malformed "garbage") [] "k" "HS256" 0 =
      .error credentials_exception ∧
    credentials_exception = credentials_exception :=
  have h : get_current_user (Token.malformed "garbage") [] "k" "HS256" 0 =
      .error credentials_exception := rfl
  ⟨h, get_current_user_single_error _ _ _ _ _ _ h⟩

/-! ### Configuration surface: module-level code of `app/auth.py`
(`SECRET_KEY = os.getenv(...)` etc.), which runs at import time, i.e. at
process startup; an exception there prevents the process from starting. -/

inductive PyError where
  | typeError
  | valueError
  deriving DecidableEq

structure AuthModuleGlobals where
  secret_key : Option String
  algorithm : Option String
  access_token_expire_minutes : Int
  deriving DecidableEq

/-- `os.getenv(key)`: `None` when the variable is absent. -/
def os_getenv (env : List (String × String)) (key : String) : Option String :=
  (env.find? (fun p => p.1 == key)).map (fun p => p.2)

def isSpaceChar (c : Char) : Bool :=
  c = ' ' || c = '\t' || c = '\n' || c = '\r'

/-- Python `str.strip()`: leading and trailing whitespace removed. -/
def py_strip (s : String) : List Char :=
  ((s.toList.dropWhile isSpaceChar).reverse.dropWhile isSpaceChar).reverse

/-- Decimal digit accumulation for the integer conversion. -/
def digitsVal (l : List Char) : Option Nat :=
  l.foldl
    (fun acc c =>
      match acc with
      | none => none
      | some n => if c.isDigit then some (n * 10 + (c.toNat - 48)) else none)
    (some 0)

/-- Python `int(s)` on a string: optional sign followed by decimal
digits; anything else raises ValueError (modelled as `none`). -/
def py_int_chars (l : List Char) : Option Int :=
  match l with
  | [] => none
  | '-' :: rest =>
    if rest = [] then none else (digitsVal rest).map (fun n => -(n : Int))
  | _ => (digitsVal l).map (fun n => (n : Int))

/-- Python `int(x)` on an optional string: `int(None)` raises TypeError,
a non-numeric string raises ValueError. -/
def py_int (x : Option String) : Except PyError Int :=
  match x with
  | none => .error .typeError
  | some s =>
    match py_int_chars (py_strip s) with
    | some n => .ok n
    | none => .error .valueError

/-- Module-level initialization of `app/auth.py`: reads the three
configuration values; only the `int(...)` conversion of
`ACCESS_TOKEN_EXPIRE_MINUTES` can raise — `os.getenv` silently yields
`None` for the missing secret key or algorithm. -/
def auth_module_init (env : List (String × String)) : Except PyError AuthModuleGlobals :=
  match py_int (os_getenv env "ACCESS_TOKEN_EXPIRE_MINUTES") with
  | .error e => .error e
  | .ok m =>
    .ok { secret_key := os_getenv env "AUTH_SECRET_KEY",
          algorithm := os_getenv env "ALGORITHM",
          access_token_expire_minutes := m }

/-- C5 counterexample: with `AUTH_SECRET_KEY` absent from the
environment (and, in the second conjunct, `ALGORITHM` absent as well),
module initialization succeeds — the process starts and serves requests
with a `None` secret key, so startup does not fail for each value
individually. -/
theorem startup_succeeds_without_secret_key :
    auth_module_init [("ALGORITHM", "HS256"), ("ACCESS_TOKEN_EXPIRE_MINUTES", "30")] =
      .ok { secret_key := none, algorithm := some "HS256",
            access_token_expire_minutes := 30 } ∧
    auth_module_init [("ACCESS_TOKEN_EXPIRE_MINUTES", "30")] =
      .ok { secret_key := none, algorithm := none,
            access_token_expire_minutes := 30 } := by
  constructor <;> rfl

/-- C5 amended: startup fails fast only for the token-lifetime value —
an absent `ACCESS_TOKEN_EXPIRE_MINUTES` raises at import; whenever that
value converts to an integer, initialization succeeds no matter whether
the secret key or algorithm is present. -/
theorem auth_startup_fail_fast_only_for_expire_minutes
    (env : List (String × String)) :
    (os_getenv env "ACCESS_TOKEN_EXPIRE_MINUTES" = none →
      auth_module_init env = .error PyError.typeError) ∧
    (∀ m : Int, py_int (os_getenv env "ACCESS_TOKEN_EXPIRE_MINUTES") = .ok m →
      auth_module_init env =
        .ok { secret_key := os_getenv env "AUTH_SECRET_KEY",
              algorithm := os_getenv env "ALGORITHM",
              access_token_expire_minutes := m }) := by
  constructor
  · intro hnone
    unfold auth_module_init
    rw [hnone]
    rfl
  · intro m hm
    unfold auth_module_init
    rw [hm]

/-- C5 amended witness: startup with only the lifetime variable set
succeeds, and an environment without the lifetime variable fails. -/
theorem auth_startup_fail_fast_only_for_expire_minutes_witness :
    auth_module_init [("ACCESS_TOKEN_EXPIRE_MINUTES", "15")] =
      .ok { secret_key := none, algorithm := none,
            access_token_expire_minutes := 15 } ∧
    auth_module_init [("AUTH_SECRET_KEY", "k")] = .error PyError.typeError :=
  ⟨(auth_startup_fail_fast_only_for_expire_minutes
      [("ACCESS_TOKEN_EXPIRE_MINUTES", "15")]).2 15 rfl,
   (auth_startup_fail_fast_only_for_expire_minutes
      [("AUTH_SECRET_KEY", "k")]).1 rfl⟩

/-- C6: evaluation of `create_access_token` at the failing input: a
supplied ttl of zero (a zero timedelta) produces an expiry of
`now + 900` seconds — the 15-minute default — instead of `now + 0`,
because `if expires_delta:` treats a zero timedelta as falsy.  The spec
requires `expiry = now + ttl` for a supplied ttl (and, in section 8,
that a ttl-0 token verify as expired). -/
theorem create_access_token_zero_ttl_uses_default :
    create_access_token
        { sub := some "a@b.com", user_id := some 7, isAdmin := false,
          name := "A", lastName := "B" }
        (some 0) 0 "k" "HS256" =
      Token.signed "k" "HS256"
        { sub := some "a@b.com", user_id := some 7, isAdmin := false,
          name := "A", lastName := "B", exp := some 900 } := rfl

/-! ### Login: `login_user` in `app/routers/users.py` -/

structure LoginRequest where
  email : String
  password : String
  deriving DecidableEq

structure UserOut where
  id : Option Int
  email : String
  name : String
  lastName : String
  isAdmin : Bool
  deriving DecidableEq

structure LoginResponse where
  access_token : Token
  token_type : String
  user : UserOut
  deriving DecidableEq

inductive LoginFailure where
  | http (e : HTTPException)
  | uncaught (e : PwdlibError)
  deriving DecidableEq

/-- `app/routers/users.py` `login_user`: empty-credential check, user
lookup by email, hash verification, token issuance with
`timedelta(minutes=ACCESS_TOKEN_EXPIRE_MINUTES)`, and the JSON body with
the token and the redacted user projection. -/
def login_user (credentials : LoginRequest) (db : List PawUser)
    (expire_minutes : Int) (secret_key algorithm : String) (now : Int) :
    Except LoginFailure LoginResponse :=
  if (py_strip credentials.email).isEmpty || (py_strip credentials.password).isEmpty then
    .error (.http { status_code := 400,
                    detail := "Email and password cannot be empty", headers := [] })
  else
    match db.find? (fun u => u.email == credentials.email) with
    | none =>
      .error (.http { status_code := 401,
                      detail := "Invalid email or password", headers := [] })
    | some db_user =>
      match verify_password credentials.password db_user.password with
      | .error e => .error (.uncaught e)
      | .ok pw_ok =>
        if !pw_ok then
          .error (.http { status_code := 401,
                          detail := "Invalid email or password", headers := [] })
        else
          .ok { access_token :=
                  create_access_token
                    { sub := some db_user.email, user_id := db_user.id,
                      isAdmin := db_user.isAdmin, name := db_user.name,
                      lastName := db_user.lastName }
                    (some (expire_minutes * 60)) now secret_key algorithm,
                token_type := "bearer",
                user := { id := db_user.id, email := db_user.email,
                          name := db_user.name, lastName := db_user.lastName,
                          isAdmin := db_user.isAdmin } }

/-- Spec-side description of the successful login body (section 6 of the
spec): the issued token alongside the redacted user projection.  Built
from exactly the fields id, email, name, lastName, isAdmin plus the
configuration and the clock — no password parameter exists. -/
def spec_login_response (id : Option Int) (email name lastName : String)
    (isAdmin : Bool) (expire_minutes : Int) (secret_key algorithm : String)
    (now : Int) : LoginResponse :=
  { access_token :=
      create_access_token
        { sub := some email, user_id := id, isAdmin := isAdmin,
          name := name, lastName := lastName }
        (some (expire_minutes * 60)) now secret_key algorithm,
    token_type := "bearer",
    user := { id := id, email := email, name := name,
              lastName := lastName, isAdmin := isAdmin } }

/-- C7: every successful login response equals the spec-side body built
from exactly the redacted fields id, email, name, lastName, isAdmin of
the matched user (plus configuration and clock): the stored password
hash can appear in no field of the response, and the projection carries
exactly those five fields. -/
theorem login_response_redacted
    (credentials : LoginRequest) (db : List PawUser) (expire_minutes : Int)
    (secret_key algorithm : String) (now : Int) (db_user : PawUser)
    (r : LoginResponse)
    (hfind : db.find? (fun u => u.email == credentials.email) = some db_user)
    (hok : login_user credentials db expire_minutes secret_key algorithm now = .ok r) :
    r = spec_login_response db_user.id db_user.email db_user.name
          db_user.lastName db_user.isAdmin expire_minutes secret_key algorithm now := by
  unfold login_user at hok
  by_cases hempty :
      ((py_strip credentials.email).isEmpty || (py_strip credentials.password).isEmpty) = true
  · rw [if_pos hempty] at hok
    exact absurd hok (by simp)
  · rw [if_neg hempty] at hok
    simp only [hfind] at hok
    cases hv : verify_password credentials.password db_user.password with
    | error e =>
      simp only [hv] at hok
      exact absurd hok (by simp)
    | ok pw_ok =>
      simp only [hv] at hok
      cases hm : pw_ok with
      | false =>
        rw [hm] at hok
        exact absurd hok (by simp)
      | true =>
        rw [hm] at hok
        simp only [Bool.not_true, Bool.false_eq_true, if_false] at hok
        exact (Except.ok.inj hok).symm

/-- C7 witness: a concrete successful login returns exactly the
spec-side response for the stored user's projection fields. -/
theorem login_response_redacted_witness :
    login_user { email := "a@b.com", password := "password123" }
        [{ id := some 7, email := "a@b.com", name := "A", lastName := "B",
           password := get_password_hash "password123" 3, isAdmin := false }]
        30 "k" "HS256" 0 =
      .ok (spec_login_response (some 7) "a@b.com" "A" "B" false 30 "k" "HS256" 0) ∧
    spec_login_response (some 7) "a@b.com" "A" "B" false 30 "k" "HS256" 0 =
      spec_login_response (some 7) "a@b.com" "A" "B" false 30 "k" "HS256" 0 :=
  have hok : login_user { email := "a@b.com", password := "password123" }
      [{ id := some 7, email := "a@b.com", name := "A", lastName := "B",
         password := get_password_hash "password123" 3, isAdmin := false }]
      30 "k" "HS256" 0 =
      .ok (spec_login_response (some 7) "a@b.com" "A" "B" false 30 "k" "HS256" 0) := by
    rfl
  have hfind : List.find? (fun (u : PawUser) => u.email == "a@b.com")
      [{ id := some 7, email := "a@b.com", name := "A", lastName := "B",
         password := get_password_hash "password123" 3, isAdmin := false }] =
      some ({ id := some 7, email := "a@b.com", name := "A", lastName := "B",
              password := get_password_hash "password123" 3, isAdmin := false } : PawUser) := rfl
  ⟨hok, login_response_redacted { email := "a@b.com", password := "password123" }
      [{ id := some 7, email := "a@b.com", name := "A", lastName := "B",
         password := get_password_hash "password123" 3, isAdmin := false }]
      30 "k" "HS256" 0
      { id := some 7, email := "a@b.com", name := "A", lastName := "B",
        password := get_password_hash "password123" 3, isAdmin := false }
      (spec_login_response (some 7) "a@b.com" "A" "B" false 30 "k" "HS256" 0)
      hfind hok⟩

/-! ### Registration: `register_user` in `app/routers/users.py`.  The
route has no authentication dependency at all: its only inputs are the
request body and the database session.  Pydantic/SQLModel field
validation (name and lastName length 1..100, password length at least 8)
runs before the handler; it appears as hypotheses of the theorem.  The
field loop of the source iterates the dict in declaration order (id,
email, name, lastName, password, isAdmin) and skips id and isAdmin. -/

def register_user (paw_user : PawUser) (db : List PawUser) (salt : Nat) :
    Except HTTPException (List PawUser) :=
  if (db.find? (fun u => u.email == paw_user.email)).isSome then
    .error { status_code := 409, detail := "Email already registered", headers := [] }
  else if (py_strip paw_user.email).isEmpty then
    .error { status_code := 400, detail := "email cannot be empty", headers := [] }
  else if (py_strip paw_user.name).isEmpty then
    .error { status_code := 400, detail := "name cannot be empty", headers := [] }
  else if (py_strip paw_user.lastName).isEmpty then
    .error { status_code := 400, detail := "lastName cannot be empty", headers := [] }
  else if (py_strip paw_user.password).isEmpty then
    .error { status_code := 400, detail := "password cannot be empty", headers := [] }
  else
    .ok (db ++ [{ paw_user with password := get_password_hash paw_user.password salt }])

/-- C9: a registration request that passes validation (email not already
present, no empty field besides id and isAdmin, password of length at
least 8) is committed with the client-supplied `isAdmin` flag unchanged
— only the password field is replaced by its hash.  `register_user`
takes no authenticated caller, so a body with `isAdmin := true` creates
an administrator account with no authentication or authorization
check. -/
theorem register_stores_client_isAdmin
    (p : PawUser) (db : List PawUser) (salt : Nat)
    (hmail : db.find? (fun u => u.email == p.email) = none)
    (he : (py_strip p.email).isEmpty = false)
    (hn : (py_strip p.name).isEmpty = false)
    (hl : (py_strip p.lastName).isEmpty = false)
    (hp : (py_strip p.password).isEmpty = false)
    (_hlen : 8 ≤ p.password.length) :
    register_user p db salt =
      .ok (db ++ [{ p with password := get_password_hash p.password salt }]) ∧
    ({ p with password := get_password_hash p.password salt } : PawUser).isAdmin
      = p.isAdmin := by
  refine ⟨?_, rfl⟩
  unfold register_user
  rw [hmail, he, hn, hl, hp]
  rfl

/-- C9 witness: an unauthenticated registration body with
`isAdmin := true` is stored as an administrator account. -/
theorem register_stores_client_isAdmin_witness :
    register_user
        { id := none, email := "eve@example.com", name := "Eve",
          lastName := "Vil", password := "password123", isAdmin := true }
        [] 3 =
      .ok [{ id := none, email := "eve@example.com", name := "Eve",
             lastName := "Vil", password := get_password_hash "password123" 3,
             isAdmin := true }] ∧
    (8 : Nat) ≤ 11 :=
  ⟨(register_stores_client_isAdmin
      { id := none, email := "eve@example.com", name := "Eve",
        lastName := "Vil", password := "password123", isAdmin := true }
      [] 3 rfl rfl rfl rfl rfl (by decide)).1,
   by decide⟩

/-! ### Admin routes: `demote_admin_to_user` and `delete_user` in
`app/internal/admin.py`.  The `admin` argument is the user produced by
the `AdminUser` dependency; an exception means the commit is never
reached, so the stored table is unchanged. -/

def demote_admin_to_user (user_id : Int) (admin : PawUser) (db : List PawUser) :
    Except HTTPException (List PawUser) :=
  match session_get db user_id with
  | none => .error { status_code := 404, detail := "User not found", headers := [] }
  | some user =>
    if !user.isAdmin then
      .error { status_code := 400, detail := "User is not an admin", headers := [] }
    else if user.id == admin.id then
      .error { status_code := 400, detail := "Cannot demote yourself", headers := [] }
    else
      .ok (db.map (fun u => if u.id == some user_id then { u with isAdmin := false } else u))

def delete_user (user_id : Int) (admin : PawUser) (db : List PawUser) :
    Except HTTPException (List PawUser) :=
  match session_get db user_id with
  | none => .error { status_code := 404, detail := "User not found", headers := [] }
  | some user =>
    if user.id == admin.id then
      .error { status_code := 400, detail := "Cannot delete yourself", headers := [] }
    else
      .ok (db.filter (fun u => !(u.id == some user_id)))

/-- C10 counterexample: demoting a distinct, existing target can fail —
with admin id 1, the existing non-admin user id 2 is a distinct target,
yet the demote operation returns 400 "User is not an admin" rather than
succeeding, so the claim that the operations succeed on every distinct
existing target is false. -/
theorem demote_distinct_existing_target_can_fail :
    session_get
        [{ id := some 1, email := "root@x.com", name := "R", lastName := "T",
           password := "h", isAdmin := true },
         { id := some 2, email := "u@x.com", name := "U", lastName := "V",
           password := "h", isAdmin := false }] 2 =
      some { id := some 2, email := "u@x.com", name := "U", lastName := "V",
             password := "h", isAdmin := false } ∧
    (some 2 : Option Int) ≠ (some 1 : Option Int) ∧
    demote_admin_to_user 2
        { id := some 1, email := "root@x.com", name := "R", lastName := "T",
          password := "h", isAdmin := true }
        [{ id := some 1, email := "root@x.com", name := "R", lastName := "T",
           password := "h", isAdmin := true },
         { id := some 2, email := "u@x.com", name := "U", lastName := "V",
           password := "h", isAdmin := false }] =
      .error { status_code := 400, detail := "User is not an admin", headers := [] } := by
  refine ⟨rfl, by decide, rfl⟩

/-- C10 amended: when the target of demote or delete is the
authenticated admin themself, the operation fails with a 400 error (and,
the exception being raised before any commit, the stored table is
unchanged); a distinct existing target is deleted successfully, and
demoted successfully provided the target is an admin — a distinct
existing non-admin target makes demote fail with 400 "User is not an
admin". -/
theorem self_demote_delete_blocked
    (uid : Int) (admin : PawUser) (db : List PawUser) :
    (admin.isAdmin = true → session_get db uid = some admin →
      demote_admin_to_user uid admin db =
        .error { status_code := 400, detail := "Cannot demote yourself", headers := [] }) ∧
    (session_get db uid = some admin →
      delete_user uid admin db =
        .error { status_code := 400, detail := "Cannot delete yourself", headers := [] }) ∧
    (∀ u : PawUser, session_get db uid = some u → u.id ≠ admin.id → u.isAdmin = true →
      demote_admin_to_user uid admin db =
        .ok (db.map (fun v => if v.id == some uid then { v with isAdmin := false } else v))) ∧
    (∀ u : PawUser, session_get db uid = some u → u.id ≠ admin.id →
      demote_admin_to_user uid admin db ≠ .ok (db.map (fun v =>
        if v.id == some uid then { v with isAdmin := false } else v)) →
      demote_admin_to_user uid admin db =
        .error { status_code := 400, detail := "User is not an admin", headers := [] }) ∧
    (∀ u : PawUser, session_get db uid = some u → u.id ≠ admin.id →
      delete_user uid admin db = .ok (db.filter (fun v => !(v.id == some uid)))) := by
  refine ⟨?_, ?_, ?_, ?_, ?_⟩
  · intro hadm hget
    unfold demote_admin_to_user
    simp [hget, hadm]
  · intro hget
    unfold delete_user
    simp [hget]
  · intro u hget hne hadm
    unfold demote_admin_to_user
    simp [hget, hadm, beq_eq_false_iff_ne.mpr hne]
  · intro u hget hne hnok
    cases hadm : u.isAdmin with
    | true =>
      exact absurd (by
        unfold demote_admin_to_user
        simp [hget, hadm, beq_eq_false_iff_ne.mpr hne]) hnok
    | false =>
      unfold demote_admin_to_user
      simp [hget, hadm]
  · intro u hget hne
    unfold delete_user
    simp [hget, beq_eq_false_iff_ne.mpr hne]

/-- C10 amended witness: with admin id 1 and a second admin id 2 in
storage, self-demote and self-delete fail with 400, while demoting and
deleting the distinct admin id 2 succeed. -/
theorem self_demote_delete_blocked_witness :
    demote_admin_to_user 1
        { id := some 1, email := "root@x.com", name := "R", lastName := "T",
          password := "h", isAdmin := true }
        [{ id := some 1, email := "root@x.com", name := "R", lastName := "T",
           password := "h", isAdmin := true },
         { id := some 2, email := "u@x.com", name := "U", lastName := "V",
           password := "h", isAdmin := true }] =
      .error { status_code := 400, detail := "Cannot demote yourself", headers := [] } ∧
    delete_user 1
        { id := some 1, email := "root@x.com", name := "R", lastName := "T",
          password := "h", isAdmin := true }
        [{ id := some 1, email := "root@x.com", name := "R", lastName := "T",
           password := "h", isAdmin := true },
         { id := some 2, email := "u@x.com", name := "U", lastName := "V",
           password := "h", isAdmin := true }] =
      .error { status_code := 400, detail := "Cannot delete yourself", headers := [] } ∧
    demote_admin_to_user 2
        { id := some 1, email := "root@x.com", name := "R", lastName := "T",
          password := "h", isAdmin := true }
        [{ id := some 1, email := "root@x.com", name := "R", lastName := "T",
           password := "h", isAdmin := true },
         { id := some 2, email := "u@x.com", name := "U", lastName := "V",
           password := "h", isAdmin := true }] =
      .ok [{ id := some 1, email := "root@x.com", name := "R", lastName := "T",
             password := "h", isAdmin := true },
           { id := some 2, email := "u@x.com", name := "U", lastName := "V",
             password := "h", isAdmin := false }] ∧
    delete_user 2
        { id := some 1, email := "root@x.com", name := "R", lastName := "T",
          password := "h", isAdmin := true }
        [{ id := some 1, email := "root@x.com", name := "R", lastName := "T",
           password := "h", isAdmin := true },
         { id := some 2, email := "u@x.com", name := "U", lastName := "V",
           password := "h", isAdmin := true }] =
      .ok [{ id := some 1, email := "root@x.com", name := "R", lastName := "T",
             password := "h", isAdmin := true }] := by
  refine ⟨?_, ?_, ?_, ?_⟩
  · exact (self_demote_delete_blocked 1
      { id := some 1, email := "root@x.com", name := "R", lastName := "T",
        password := "h", isAdmin := true }
      [{ id := some 1, email := "root@x.com", name := "R", lastName := "T",
         password := "h", isAdmin := true },
       { id := some 2, email := "u@x.com", name := "U", lastName := "V",
         password := "h", isAdmin := true }]).1 rfl rfl
  · exact (self_demote_delete_blocked 1
      { id := some 1, email := "root@x.com", name := "R", lastName := "T",
        password := "h", isAdmin := true }
      [{ id := some 1, email := "root@x.com", name := "R", lastName := "T",
         password := "h", isAdmin := true },
       { id := some 2, email := "u@x.com", name := "U", lastName := "V",
         password := "h", isAdmin := true }]).2.1 rfl
  · exact ((self_demote_delete_blocked 2
      { id := some 1, email := "root@x.com", name := "R", lastName := "T",
        password := "h", isAdmin := true }
      [{ id := some 1, email := "root@x.com", name := "R", lastName := "T",
         password := "h", isAdmin := true },
       { id := some 2, email := "u@x.com", name := "U", lastName := "V",
         password := "h", isAdmin := true }]).2.2.1
      { id := some 2, email := "u@x.com", name := "U", lastName := "V",
        password := "h", isAdmin := true }
      rfl (by decide) rfl).trans rfl
  · exact ((self_demote_delete_blocked 2
      { id := some 1, email := "root@x.com", name := "R", lastName := "T",
        password := "h", isAdmin := true }
      [{ id := some 1, email := "root@x.com", name := "R", lastName := "T",
         password := "h", isAdmin := true },
       { id := some 2, email := "u@x.com", name := "U", lastName := "V",
         password := "h", isAdmin := true }]).2.2.2.2
      { id := some 2, email := "u@x.com", name := "U", lastName := "V",
        password := "h", isAdmin := true }
      rfl (by decide)).trans rfl

end PawScout
